import Mathlib

/-!
Verification of the planet/obstacle simulation loop of the arcade game in
`src/main.rs` (Rust, bevy/parry2d).  The per-frame systems are shallowly
embedded as pure Lean functions.

Modelling conventions:
* `f32` values are modelled as exact rationals (`ℚ`).  Decimal literals of the
  source are taken at face value; the constant `std::f32::consts::PI` is
  modelled by the exact rational value of that `f32` constant.
* The transcendental operations `cos`, `sin` and `sqrt` of `f32` are passed to
  the embedded functions as explicit function arguments `cosQ sinQ sqrtQ :
  ℚ → ℚ`: none of the claims depends on their values, only on how the code
  combines them.
* `Vec2` is the 2-d vector of the engine; `Vec2.distance a b < c` (with
  `0 ≤ c`) is modelled by the equivalent square comparison
  `distSq a b < c * c`, which keeps the definitions executable over `ℚ`.
* Random draws (`rand` crate) are passed in as explicit streams; the
  postcondition of `gen_range(1..=n)` becomes a hypothesis where needed.
-/

namespace IndieVarvars

/-- 2-d vector with rational coordinates, modelling bevy's `Vec2` (`f32`
coordinates). -/
structure Vec2 where
  x : ℚ
  y : ℚ
deriving DecidableEq, Repr

/-- Squared Euclidean distance between two `Vec2`.  The source compares
`a.distance(b) < 1.`; since both sides are nonnegative this is equivalent to
`distSq a b < 1`, which is what the embedding uses. -/
def distSq (a b : Vec2) : ℚ :=
  (a.x - b.x) * (a.x - b.x) + (a.y - b.y) * (a.y - b.y)

/-! Constants from the top of `src/main.rs`. -/

def PLAYER_JUMP_STRENGTH : ℚ := 450

def GRAVITY_STRENGTH : ℚ := -2743/100

def PLAYER_FALL_ACCELERATION : ℚ := -3000

def PLANET_SIZE : Vec2 := ⟨715, 715⟩

def PLANET_SHRINK_SPEED : ℚ := 50

def PLANET_SHRINK_LIMIT : Vec2 := ⟨200, 200⟩

def OBSTACLE_SIZE : Vec2 := ⟨64, 64⟩

def OBSTACLE_MOVEMENT_SPEED : ℚ := 2

def OBSTACLES_MAX_NUM : Nat := 7

/-- Exact rational value of the `f32` constant `std::f32::consts::PI`
(`0x40490FDB`, i.e. `3.14159274101257324…`). -/
def PI : ℚ := 13176795 / 4194304

/-- `20 degrees - 45 degrees` comment in the source; value pair
`(0., 0.261799)`. -/
def OBSTACLE_CLOSE_GAP_RANGE : ℚ × ℚ := (0, 261799/1000000)

/-- `40 degrees - 80 degrees` comment in the source; value pair
`(0.698132, 1.39626)`. -/
def OBSTACLE_LONG_GAP_RANGE : ℚ × ℚ := (698132/1000000, 139626/100000)

/-- `OBSTACLE_MAX_ANGLE_GENERATION = PI`. -/
def OBSTACLE_MAX_ANGLE_GENERATION : ℚ := PI

/-- `OBSTACLE_MIN_ANGLE_GENERATION = FRAC_PI_4`. -/
def OBSTACLE_MIN_ANGLE_GENERATION : ℚ := PI / 4

/-- Degrees to radians, modelling `f32::to_radians`. -/
def degToRad (d : ℚ) : ℚ := d * (PI / 180)

/-- The seven planet variants of the game, in declaration order. -/
inductive PlanetVariant where
  | Earth
  | Venus
  | Mars
  | Mercury
  | Jupiter
  | Neptune
  | Uran
deriving DecidableEq, Repr

/-- `PlanetVariant::next`: the fixed successor in the variant cycle. -/
def PlanetVariant.next : PlanetVariant → PlanetVariant
  | .Earth => .Venus
  | .Venus => .Mars
  | .Mars => .Mercury
  | .Mercury => .Jupiter
  | .Jupiter => .Neptune
  | .Neptune => .Uran
  | .Uran => .Earth

/-- `PlanetVariant::get_obstacles`: the fixed per-variant obstacle angle
layout used in story mode (`FRAC_PI_6 = PI/6`, `FRAC_PI_4 = PI/4`). -/
def PlanetVariant.get_obstacles : PlanetVariant → List ℚ
  | .Earth => [0]
  | .Venus => [0, PI]
  | .Mars => [degToRad 290, degToRad 270, degToRad 250]
  | .Mercury => [PI, degToRad 30, 0, degToRad 330]
  | .Jupiter => [PI / 6, degToRad 150, degToRad 270]
  | .Neptune => [PI / 4, PI / 6, degToRad 15, degToRad 240, degToRad 225, degToRad 210]
  | .Uran => [PI, degToRad 225, degToRad 315, 0]

/-- `AppState` of the game (`Playing` is the default). -/
inductive AppState where
  | Playing
  | GameOver
deriving DecidableEq, Repr

/-- The `Player` component: grounded flag and vertical velocity. -/
structure Player where
  is_grounded : Bool
  velocity : ℚ
deriving DecidableEq, Repr

/-- The `Planet` component.  `obstacles` holds the entity ids of the spawned
obstacle entities (the engine owns the entities; ids are modelled by `Nat`). -/
structure Planet where
  variant : PlanetVariant
  is_playing : Bool
  obstacles : List Nat
  radius : ℚ
deriving DecidableEq, Repr

/-- A `PlanetSpawnEvent` as sent by `start_game` and
`shrink_current_planet` (positions are 2-d here; the source's `Vec3` `z` is
constant). -/
structure PlanetSpawnEvent where
  planet_variant_to_spawn : PlanetVariant
  last_planet_position : Vec2
deriving DecidableEq, Repr

/-- Result of the parry2d ball-ball contact query: the contact normal on the
first shape and the signed distance (negative when penetrating). -/
structure Contact where
  normal1 : Vec2
  dist : ℚ
deriving DecidableEq, Repr

/-- Models the dependency call `parry2d::query::contact` for two `Ball`
shapes at translations `pos1`, `pos2` with radii `r1`, `r2` and prediction
distance `pred`: a contact is reported iff the distance between the centers
is below `r1 + r2 + pred` (compared in squared form, which is equivalent for
nonnegative radii); the reported normal is the normalized center difference
(`(0,1)` when the centers coincide) and the reported distance is the center
distance minus the radius sum. -/
def contact (sqrtQ : ℚ → ℚ) (pos1 pos2 : Vec2) (r1 r2 pred : ℚ) : Option Contact :=
  let dx := pos2.x - pos1.x
  let dy := pos2.y - pos1.y
  let dsq := dx * dx + dy * dy
  let rsum := r1 + r2
  if dsq < (rsum + pred) * (rsum + pred) then
    let n : Vec2 := if dsq = 0 then ⟨0, 1⟩ else ⟨dx / sqrtQ dsq, dy / sqrtQ dsq⟩
    some ⟨n, sqrtQ dsq - rsum⟩
  else
    none

/-- A planet entity as the systems see it: the sprite's `custom_size`, the
`Collider` ball radius, the transform translation and the `Planet`
component. -/
structure PlanetEnt where
  sprite_size : Vec2
  collider_radius : ℚ
  translation : Vec2
  planet : Planet
deriving DecidableEq, Repr

/-- New sprite size after one shrink step:
`custom_size - PLANET_SHRINK_SPEED * dt` (`Vec2 - f32` subtracts the scalar
from both components). -/
def shrunkSize (dt : ℚ) (sz : Vec2) : Vec2 :=
  ⟨sz.x - PLANET_SHRINK_SPEED * dt, sz.y - PLANET_SHRINK_SPEED * dt⟩

/-- New collider radius after one shrink step:
`radius - PLANET_SHRINK_SPEED / 2.0 * dt`. -/
def shrunkRadius (dt : ℚ) (r : ℚ) : ℚ :=
  r - PLANET_SHRINK_SPEED / 2 * dt

/-- Outcome of `shrink_current_planet` for one planet entity: the surviving
(updated) entity if it was not despawned, the entity ids of the obstacles
that were despawned, the `PlanetSpawnEvent`s sent, whether
`infinite_mode` was switched on and how much was added to the score. -/
structure ShrinkResult where
  planet : Option PlanetEnt
  despawned_obstacles : List Nat
  events : List PlanetSpawnEvent
  set_infinite_mode : Bool
  score_delta : Nat
deriving DecidableEq, Repr

/-- `shrink_current_planet` restricted to one planet entity.  A planet that
is not playing is skipped.  Otherwise the sprite size and the collider
radius shrink (the `Planet.radius` field mirrors the collider radius), and
if the new sprite size lies within distance `1` of `PLANET_SHRINK_LIMIT`
(squared comparison, see `distSq`) the planet's obstacles and the planet are
despawned, one spawn event carrying the successor variant and the planet's
translation is sent, `infinite_mode` is set when the successor is `Earth`,
and the score is incremented. -/
def shrink_current_planet (dt : ℚ) (e : PlanetEnt) : ShrinkResult :=
  if !e.planet.is_playing then
    ⟨some e, [], [], false, 0⟩
  else
    let new_planet_size := shrunkSize dt e.sprite_size
    let new_radius := shrunkRadius dt e.collider_radius
    let e' : PlanetEnt :=
      { e with
        sprite_size := new_planet_size
        collider_radius := new_radius
        planet := { e.planet with radius := new_radius } }
    if distSq new_planet_size PLANET_SHRINK_LIMIT < 1 then
      ⟨none, e.planet.obstacles,
        [⟨e.planet.variant.next, e.translation⟩],
        decide (e.planet.variant.next = PlanetVariant.Earth), 1⟩
    else
      ⟨some e', [], [], false, 0⟩

/-- Joint player/planet state read and written by
`check_player_planet_collisions`. -/
structure PPState where
  player_translation : Vec2
  player_radius : ℚ
  player : Player
  planet_translation : Vec2
  planet_radius : ℚ
  planet : Planet
deriving DecidableEq, Repr

/-- `check_player_planet_collisions` for the single player and planet: a
ball-ball contact query with prediction distance `1`.  On contact the player
translation moves by `contact.dist` along `contact.normal1`, the player is
grounded and the planet starts playing; otherwise the player is not
grounded. -/
def check_player_planet_collisions (sqrtQ : ℚ → ℚ) (s : PPState) : PPState :=
  match contact sqrtQ s.player_translation s.planet_translation
      s.player_radius s.planet_radius 1 with
  | some c =>
    { s with
      player_translation :=
        ⟨s.player_translation.x + c.dist * c.normal1.x,
         s.player_translation.y + c.dist * c.normal1.y⟩
      player := { s.player with is_grounded := true }
      planet := { s.planet with is_playing := true } }
  | none =>
    { s with player := { s.player with is_grounded := false } }

/-- `check_player_obstacle_collisions`: a ball-ball contact query with
prediction distance `0` against every obstacle (given as translation and
collider radius).  Any contact queues `AppState::GameOver` as the next
state; `none` models leaving the next state untouched. -/
def check_player_obstacle_collisions (sqrtQ : ℚ → ℚ) (player_translation : Vec2)
    (player_radius : ℚ) (obstacles : List (Vec2 × ℚ)) : Option AppState :=
  if obstacles.any (fun o =>
      (contact sqrtQ player_translation o.1 player_radius o.2 0).isSome) then
    some AppState.GameOver
  else
    none

/-- An obstacle entity as `move_obstacles_on_planet` sees it: transform
translation and the `Obstacle` component's angle. -/
structure ObstacleEnt where
  translation : Vec2
  angle : ℚ
deriving DecidableEq, Repr

/-- The per-obstacle body of `move_obstacles_on_planet`: reposition the
obstacle at the planet translation plus `(planet radius + obstacle radius)`
times `(cos angle, sin angle)` (using the angle before the decrement), then
decrement the angle by `dt * OBSTACLE_MOVEMENT_SPEED`, then reset it to `0`
if its absolute value exceeds `2π`. -/
def move_obstacle (cosQ sinQ : ℚ → ℚ) (dt : ℚ) (planet_translation : Vec2)
    (planet_radius : ℚ) (o : ObstacleEnt) : ObstacleEnt :=
  let obstacle_radius := OBSTACLE_SIZE.y / 2
  let tx := planet_translation.x + cosQ o.angle * (planet_radius + obstacle_radius)
  let ty := planet_translation.y + sinQ o.angle * (planet_radius + obstacle_radius)
  let a := o.angle - dt * OBSTACLE_MOVEMENT_SPEED
  ⟨⟨tx, ty⟩, if |a| > PI * 2 then 0 else a⟩

/-- `move_obstacles_on_planet` over the live planet's obstacle list: no
obstacle moves unless the planet is playing; otherwise every obstacle in the
list is updated by `move_obstacle`. -/
def move_obstacles_on_planet (cosQ sinQ : ℚ → ℚ) (dt : ℚ) (is_playing : Bool)
    (planet_translation : Vec2) (planet_radius : ℚ)
    (obstacles : List ObstacleEnt) : List ObstacleEnt :=
  if !is_playing then obstacles
  else obstacles.map (move_obstacle cosQ sinQ dt planet_translation planet_radius)

/-- The keyboard reads made by `player_jump`:
`just_pressed(Space)` and `pressed(S)`. -/
structure JumpInput where
  space_just_pressed : Bool
  s_pressed : Bool
deriving DecidableEq, Repr

/-- `player_jump`: a grounded player's velocity is first reset to `0`; then
gravity `GRAVITY_STRENGTH * |GRAVITY_STRENGTH| * dt` is added; pressing
space while grounded sets the velocity to `PLAYER_JUMP_STRENGTH`; holding S
while airborne adds `PLAYER_FALL_ACCELERATION * dt`; finally the `y`
translation advances by `velocity * dt`.  Returns the new `y` and player. -/
def player_jump (dt : ℚ) (inp : JumpInput) (y : ℚ) (p : Player) : ℚ × Player :=
  let v0 := if p.is_grounded then 0 else p.velocity
  let v1 := v0 + GRAVITY_STRENGTH * |GRAVITY_STRENGTH| * dt
  let v2 := if inp.space_just_pressed && p.is_grounded then PLAYER_JUMP_STRENGTH else v1
  let v3 := if inp.s_pressed && !p.is_grounded then v2 + PLAYER_FALL_ACCELERATION * dt else v2
  (y + v3 * dt, { p with velocity := v3 })

/-- The random draws consumed by `spawn_obstacles`, passed in as explicit
streams indexed by the loop counter: `coin i` models `rng.gen_bool(0.5)`,
`base_low i` the draw from `0..=OBSTACLE_MIN_ANGLE_GENERATION`, `base_high i`
the draw from `OBSTACLE_MAX_ANGLE_GENERATION..=2π`, `gap_close i` the draw
from `OBSTACLE_CLOSE_GAP_RANGE` and `gap_long i` the draw from
`OBSTACLE_LONG_GAP_RANGE`. -/
structure ObstacleRng where
  coin : Nat → Bool
  base_low : Nat → ℚ
  base_high : Nat → ℚ
  gap_close : Nat → ℚ
  gap_long : Nat → ℚ

/-- The loop body of `spawn_obstacles` for iterations `i, i+1, …` while `n`
obstacles remain to spawn, threading `last_obstacle_angle`.  The random
angle is drawn from the low or the high range by the coin, pushed away from
the previous angle when the gap is small, recorded as
`last_obstacle_angle`, and then — in story mode (`infinite = false`) —
overwritten by the `i`-th layout angle (`layout[i]`; `getD _ 0` models the
panicking index, which in story mode is always in bounds because the loop
runs exactly `layout.length` times).  The obstacle is spawned at the planet
translation plus `(planet radius + obstacle radius)` times
`(cos angle, sin angle)`. -/
def spawnObstaclesLoop (cosQ sinQ : ℚ → ℚ) (rng : ObstacleRng) (infinite : Bool)
    (layout : List ℚ) (planet_translation : Vec2) (planet_radius : ℚ) :
    Nat → Nat → ℚ → List ObstacleEnt
  | 0, _, _ => []
  | n + 1, i, last_obstacle_angle =>
    let angle0 := if rng.coin i then rng.base_low i else rng.base_high i
    let angle1 :=
      if last_obstacle_angle ≠ 0 then
        if |angle0 - last_obstacle_angle| < OBSTACLE_CLOSE_GAP_RANGE.2 then
          angle0 - rng.gap_close i
        else if |angle0 - last_obstacle_angle| < OBSTACLE_LONG_GAP_RANGE.2 then
          angle0 - rng.gap_long i
        else angle0
      else angle0
    let angle := if !infinite then layout.getD i 0 else angle1
    let obstacle_radius := OBSTACLE_SIZE.y / 2
    let o : ObstacleEnt :=
      ⟨⟨planet_translation.x + cosQ angle * (planet_radius + obstacle_radius),
        planet_translation.y + sinQ angle * (planet_radius + obstacle_radius)⟩,
       angle⟩
    o :: spawnObstaclesLoop cosQ sinQ rng infinite layout planet_translation
      planet_radius n (i + 1) angle1

/-- `spawn_obstacles` for the single planet: `num` models the draw
`rng.gen_range(1..=OBSTACLES_MAX_NUM)`; in story mode the count is
overwritten by the length of the variant's layout. -/
def spawn_obstacles (cosQ sinQ : ℚ → ℚ) (rng : ObstacleRng) (infinite : Bool)
    (variant : PlanetVariant) (planet_translation : Vec2) (planet_radius : ℚ)
    (num : Nat) : List ObstacleEnt :=
  let obstacles_num := if !infinite then variant.get_obstacles.length else num
  spawnObstaclesLoop cosQ sinQ rng infinite variant.get_obstacles
    planet_translation planet_radius obstacles_num 0 0

/-- A freshly spawned planet, as built by `spawn_planet`: the requested
variant, not yet playing, no obstacles, radius `PLANET_SIZE.y / 2`. -/
def mkPlanet (v : PlanetVariant) : Planet :=
  { variant := v, is_playing := false, obstacles := [], radius := PLANET_SIZE.y / 2 }

/-- One step of the planet population, abstracting the planet-lifecycle
systems of the game (the state is the list of live `Planet` components):
* `startSpawn` — `start_game` queues one `PlanetSpawnEvent` when no planet
  exists (on entering `AppState::Playing`) and `spawn_planet` turns it into
  one fresh planet;
* `touch` — `check_player_planet_collisions` sets `is_playing` on a planet
  the player contacts (the guard is dropped: the step may fire for any
  planet at any time, which only enlarges the reachable set);
* `transition` — `shrink_current_planet` despawns the playing planet whose
  sprite size reached the shrink window and queues one spawn event with the
  successor variant; the despawn command is applied before
  `spawn_planet` runs on entering `LoadingState::Planet` (bevy applies
  pending commands before the state-transition schedule), so the step
  removes the old planet and appends the fresh one (again with the shrink
  guard dropped);
* `restart` — `restart_game` despawns every planet on entering
  `AppState::GameOver`. -/
inductive PlanetsStep : List Planet → List Planet → Prop
  | startSpawn :
      PlanetsStep [] [mkPlanet PlanetVariant.Earth]
  | touch (pre : List Planet) (p : Planet) (post : List Planet) :
      PlanetsStep (pre ++ p :: post) (pre ++ { p with is_playing := true } :: post)
  | transition (pre : List Planet) (p : Planet) (post : List Planet)
      (hp : p.is_playing = true) :
      PlanetsStep (pre ++ p :: post) ((pre ++ post) ++ [mkPlanet p.variant.next])
  | restart (ps : List Planet) :
      PlanetsStep ps []

/-- The planet populations reachable from the start of a run (no planet). -/
inductive PlanetsReachable : List Planet → Prop
  | init : PlanetsReachable []
  | step (s t : List Planet) (hs : PlanetsReachable s) (hst : PlanetsStep s t) :
      PlanetsReachable t

/-! Concrete entities used by the witness and counterexample theorems. -/

/-- A freshly started Earth planet entity, playing, at the origin. -/
def exPlanet : PlanetEnt :=
  ⟨⟨715, 715⟩, 715/2, ⟨0, 0⟩, ⟨PlanetVariant.Earth, true, [], 715/2⟩⟩

/-- `exPlanet` after one shrink step with `dt = 1/60`. -/
def exPlanetShrunk : PlanetEnt :=
  ⟨⟨4285/6, 4285/6⟩, 4285/12, ⟨0, 0⟩, ⟨PlanetVariant.Earth, true, [], 4285/12⟩⟩

/-- A playing Earth planet just above the shrink window: sprite size
`200.5`, collider radius `100.25`, one obstacle entity. -/
def shrinkTrigEx : PlanetEnt :=
  ⟨⟨401/2, 401/2⟩, 401/4, ⟨0, 0⟩, ⟨PlanetVariant.Earth, true, [5], 401/4⟩⟩

/-- C6: the planet variant successor function is the fixed seven-cycle
Earth → Venus → Mars → Mercury → Jupiter → Neptune → Uran → Earth, so seven
applications of `next` are the identity. -/
theorem planet_variant_next_cycle :
    (PlanetVariant.next PlanetVariant.Earth = PlanetVariant.Venus ∧
     PlanetVariant.next PlanetVariant.Venus = PlanetVariant.Mars ∧
     PlanetVariant.next PlanetVariant.Mars = PlanetVariant.Mercury ∧
     PlanetVariant.next PlanetVariant.Mercury = PlanetVariant.Jupiter ∧
     PlanetVariant.next PlanetVariant.Jupiter = PlanetVariant.Neptune ∧
     PlanetVariant.next PlanetVariant.Neptune = PlanetVariant.Uran ∧
     PlanetVariant.next PlanetVariant.Uran = PlanetVariant.Earth) ∧
    ∀ v : PlanetVariant, PlanetVariant.next^[7] v = v := by
  refine ⟨⟨rfl, rfl, rfl, rfl, rfl, rfl, rfl⟩, ?_⟩
  intro v
  cases v <;> rfl

/-- C7: after the per-obstacle update of `move_obstacles_on_planet`, the
angular offset always has absolute value at most `2π`: the update resets
the angle to `0` once its absolute value exceeds `2π` instead of wrapping
modulo `2π`. -/
theorem move_obstacle_angle_bounded (cosQ sinQ : ℚ → ℚ) (dt : ℚ)
    (planet_translation : Vec2) (planet_radius : ℚ) (o : ObstacleEnt) :
    |(move_obstacle cosQ sinQ dt planet_translation planet_radius o).angle| ≤ PI * 2 := by
  show |if |o.angle - dt * OBSTACLE_MOVEMENT_SPEED| > PI * 2 then (0:ℚ)
        else o.angle - dt * OBSTACLE_MOVEMENT_SPEED| ≤ PI * 2
  split
  · simp only [abs_zero]
    norm_num [PI]
  · exact le_of_not_lt (by assumption)

/-- C5: while the planet is playing, one frame of `shrink_current_planet`
decreases the collider radius (mirrored into `Planet.radius`) by exactly
`PLANET_SHRINK_SPEED / 2 * dt`, hence strictly for positive `dt`; a planet
that is not playing is left unchanged. -/
theorem shrink_radius_monotone (dt : ℚ) (e : PlanetEnt) :
    (e.planet.is_playing = true →
      ∀ e', (shrink_current_planet dt e).planet = some e' →
        e'.collider_radius = e.collider_radius - PLANET_SHRINK_SPEED / 2 * dt ∧
        e'.planet.radius = e'.collider_radius ∧
        (0 < dt → e'.collider_radius < e.collider_radius)) ∧
    (e.planet.is_playing = false →
      shrink_current_planet dt e = ⟨some e, [], [], false, 0⟩) := by
  constructor
  · intro hp e' he'
    unfold shrink_current_planet at he'
    rw [hp] at he'
    simp only [Bool.not_true, Bool.false_eq_true, if_false] at he'
    split at he'
    · simp at he'
    · simp only [Option.some.injEq] at he'
      subst he'
      refine ⟨rfl, rfl, ?_⟩
      intro hdt
      show shrunkRadius dt e.collider_radius < e.collider_radius
      unfold shrunkRadius PLANET_SHRINK_SPEED
      linarith
  · intro hp
    unfold shrink_current_planet
    rw [hp]
    rfl

/-- Witness for C5 at `exPlanet` with `dt = 1/60`: the radius strictly
decreased. -/
theorem shrink_radius_monotone_w :
    exPlanetShrunk.collider_radius < exPlanet.collider_radius :=
  ((shrink_radius_monotone (1/60) exPlanet).1 rfl exPlanetShrunk
      (by norm_num [shrink_current_planet, shrunkSize, shrunkRadius, distSq,
        PLANET_SHRINK_SPEED, PLANET_SHRINK_LIMIT, exPlanet, exPlanetShrunk])).2.2
    (by norm_num)

/-- C1 (counterexample): with `dt = 1/500` the planet `shrinkTrigEx` is
despawned and the spawn event is sent although its radius is still above the
limit — the new collider radius `100.2` exceeds `PLANET_SHRINK_LIMIT.y / 2`
and the new sprite size `200.4` exceeds `PLANET_SHRINK_LIMIT.x` — because
the code triggers as soon as the sprite size is within distance `1` of
`PLANET_SHRINK_LIMIT`, not when the radius crosses it. -/
theorem shrink_above_limit_counterexample :
    shrinkTrigEx.planet.is_playing = true ∧
    PLANET_SHRINK_LIMIT.y / 2 < shrunkRadius (1/500) shrinkTrigEx.collider_radius ∧
    PLANET_SHRINK_LIMIT.x < (shrunkSize (1/500) shrinkTrigEx.sprite_size).x ∧
    (shrink_current_planet (1/500) shrinkTrigEx).planet = none ∧
    (shrink_current_planet (1/500) shrinkTrigEx).events =
      [⟨PlanetVariant.Venus, ⟨0, 0⟩⟩] := by
  norm_num [shrink_current_planet, shrunkSize, shrunkRadius, distSq,
    PLANET_SHRINK_SPEED, PLANET_SHRINK_LIMIT, shrinkTrigEx, PlanetVariant.next]

/-- C1 (amended): for a playing planet, the planet and all obstacles in its
list are despawned and exactly one spawn event carrying the cyclic successor
variant is sent exactly when the shrunken sprite size lies within distance
`1` of `PLANET_SHRINK_LIMIT` (which can happen while the radius is still
slightly above the limit, and which a large frame delta can step over);
otherwise, and for a planet that is not playing, nothing is despawned and no
event is sent. -/
theorem shrink_transition_spec (dt : ℚ) (e : PlanetEnt) :
    (e.planet.is_playing = false →
      shrink_current_planet dt e = ⟨some e, [], [], false, 0⟩) ∧
    (e.planet.is_playing = true →
      (distSq (shrunkSize dt e.sprite_size) PLANET_SHRINK_LIMIT < 1 →
        shrink_current_planet dt e =
          ⟨none, e.planet.obstacles,
            [⟨e.planet.variant.next, e.translation⟩],
            decide (e.planet.variant.next = PlanetVariant.Earth), 1⟩) ∧
      (¬ distSq (shrunkSize dt e.sprite_size) PLANET_SHRINK_LIMIT < 1 →
        (shrink_current_planet dt e).events = [] ∧
        (shrink_current_planet dt e).despawned_obstacles = [] ∧
        (shrink_current_planet dt e).planet ≠ none)) := by
  refine ⟨?_, fun hp => ⟨?_, ?_⟩⟩
  · intro hp
    unfold shrink_current_planet
    rw [hp]
    rfl
  · intro htrig
    unfold shrink_current_planet
    rw [hp]
    simp only [Bool.not_true, Bool.false_eq_true, if_false]
    rw [if_pos htrig]
  · intro htrig
    unfold shrink_current_planet
    rw [hp]
    simp only [Bool.not_true, Bool.false_eq_true, if_false]
    rw [if_neg htrig]
    exact ⟨rfl, rfl, by simp⟩

/-- Witness for C1 (amended) at `shrinkTrigEx` with `dt = 1/500`: planet and
obstacle `5` despawned, one Venus spawn event sent. -/
theorem shrink_transition_spec_w :
    shrink_current_planet (1/500) shrinkTrigEx =
      ⟨none, [5], [⟨PlanetVariant.Venus, ⟨0, 0⟩⟩], false, 1⟩ := by
  have h := ((shrink_transition_spec (1/500) shrinkTrigEx).2 rfl).1
    (by norm_num [shrunkSize, distSq, PLANET_SHRINK_SPEED, PLANET_SHRINK_LIMIT,
      shrinkTrigEx])
  refine h.trans ?_
  norm_num [shrinkTrigEx, PlanetVariant.next]
  decide

/-- Player at the origin above a planet two units below, both of collider
radius `1`: in contact for the prediction distance `1`. -/
def ppEx : PPState :=
  ⟨⟨0, 0⟩, 1, ⟨false, 7⟩, ⟨0, -2⟩, 1, ⟨PlanetVariant.Earth, false, [], 1⟩⟩

/-- C2: on a player-vs-planet contact (ball-ball query with prediction
distance `1`) the player translation moves by `contact.dist` along
`contact.normal1`, the player becomes grounded and the planet starts
playing; without contact the player is not grounded (and nothing else
changes). -/
theorem player_planet_contact_spec (sq : ℚ → ℚ) (s : PPState) :
    (∀ c, contact sq s.player_translation s.planet_translation
        s.player_radius s.planet_radius 1 = some c →
      check_player_planet_collisions sq s =
        { s with
          player_translation :=
            ⟨s.player_translation.x + c.dist * c.normal1.x,
             s.player_translation.y + c.dist * c.normal1.y⟩
          player := { s.player with is_grounded := true }
          planet := { s.planet with is_playing := true } }) ∧
    (contact sq s.player_translation s.planet_translation
        s.player_radius s.planet_radius 1 = none →
      check_player_planet_collisions sq s =
        { s with player := { s.player with is_grounded := false } }) := by
  constructor
  · intro c hc
    unfold check_player_planet_collisions
    rw [hc]
  · intro hn
    unfold check_player_planet_collisions
    rw [hn]

/-- Witness for C2 at `ppEx` with a square root oracle answering `2`: the
contact has distance `0` and normal `(0, -1)`, the player stays put and
becomes grounded, the planet starts playing. -/
theorem player_planet_contact_spec_w :
    check_player_planet_collisions (fun _ => 2) ppEx =
      { ppEx with
        player := { ppEx.player with is_grounded := true }
        planet := { ppEx.planet with is_playing := true } } := by
  have h := (player_planet_contact_spec (fun _ => 2) ppEx).1 ⟨⟨0, -1⟩, 0⟩
    (by norm_num [contact, ppEx])
  exact h.trans (by norm_num [ppEx])

/-- C4: if any obstacle is in ball-ball contact with the player at query
distance `0`, the next application state is `GameOver`; if no obstacle is in
contact, the next application state is left untouched (`none`). -/
theorem player_obstacle_gameover_spec (sq : ℚ → ℚ) (pt : Vec2) (pr : ℚ)
    (obstacles : List (Vec2 × ℚ)) :
    ((∃ o ∈ obstacles, (contact sq pt o.1 pr o.2 0).isSome = true) →
      check_player_obstacle_collisions sq pt pr obstacles = some AppState.GameOver) ∧
    ((∀ o ∈ obstacles, contact sq pt o.1 pr o.2 0 = none) →
      check_player_obstacle_collisions sq pt pr obstacles = none) := by
  constructor
  · intro hex
    have htrue : (obstacles.any fun o => (contact sq pt o.1 pr o.2 0).isSome) = true := by
      simp only [List.any_eq_true]
      simpa using hex
    simp [check_player_obstacle_collisions, htrue]
  · intro hall
    have hfalse : (obstacles.any fun o => (contact sq pt o.1 pr o.2 0).isSome) = false := by
      simp only [List.any_eq_false]
      intro o ho
      simp [hall o ho]
    simp [check_player_obstacle_collisions, hfalse]

/-- Witness for C4: a player of radius `1` sitting on an obstacle of radius
`1` at the same point triggers the game-over transition. -/
theorem player_obstacle_gameover_spec_w :
    check_player_obstacle_collisions (fun _ => 0) ⟨0, 0⟩ 1 [(⟨0, 0⟩, 1)] =
      some AppState.GameOver :=
  (player_obstacle_gameover_spec (fun _ => 0) ⟨0, 0⟩ 1 [(⟨0, 0⟩, 1)]).1
    ⟨(⟨0, 0⟩, 1), by simp, by norm_num [contact]⟩

/-- C3 (counterexample): an obstacle at angle `-31/5` updated with
`dt = 1/20` does not end at `-31/5 - (1/20) * OBSTACLE_MOVEMENT_SPEED`: the
decrement lands below `-2π`, so the code resets the angle to `0` instead. -/
theorem move_obstacle_decrement_counterexample :
    (move_obstacle (fun _ => 0) (fun _ => 0) (1/20) ⟨0, 0⟩ 100 ⟨⟨0, 0⟩, -31/5⟩).angle ≠
      -31/5 - 1/20 * OBSTACLE_MOVEMENT_SPEED := by
  norm_num [move_obstacle, OBSTACLE_MOVEMENT_SPEED, OBSTACLE_SIZE, PI]
  rw [abs_of_nonneg (by norm_num : (0:ℚ) ≤ 63/10)]
  norm_num

/-- C3 (amended): when the planet is playing each obstacle in its list is
repositioned to the planet center plus `(planet radius + obstacle radius)`
times `(cos angle, sin angle)` (using the angle before the decrement); the
angular offset is then decremented by `OBSTACLE_MOVEMENT_SPEED * dt` and
reset to `0` if the decremented value's absolute value exceeds `2π`;
obstacles are not moved when the planet is not playing. -/
theorem move_obstacles_spec (cosQ sinQ : ℚ → ℚ) (dt : ℚ) (pt : Vec2) (pr : ℚ)
    (obstacles : List ObstacleEnt) :
    (move_obstacles_on_planet cosQ sinQ dt false pt pr obstacles = obstacles) ∧
    (move_obstacles_on_planet cosQ sinQ dt true pt pr obstacles =
      obstacles.map (move_obstacle cosQ sinQ dt pt pr)) ∧
    ∀ o : ObstacleEnt,
      (move_obstacle cosQ sinQ dt pt pr o).translation =
        ⟨pt.x + cosQ o.angle * (pr + OBSTACLE_SIZE.y / 2),
         pt.y + sinQ o.angle * (pr + OBSTACLE_SIZE.y / 2)⟩ ∧
      (|o.angle - dt * OBSTACLE_MOVEMENT_SPEED| ≤ PI * 2 →
        (move_obstacle cosQ sinQ dt pt pr o).angle =
          o.angle - dt * OBSTACLE_MOVEMENT_SPEED) ∧
      (|o.angle - dt * OBSTACLE_MOVEMENT_SPEED| > PI * 2 →
        (move_obstacle cosQ sinQ dt pt pr o).angle = 0) := by
  refine ⟨rfl, rfl, fun o => ⟨rfl, ?_, ?_⟩⟩
  · intro hle
    show (if |o.angle - dt * OBSTACLE_MOVEMENT_SPEED| > PI * 2 then (0:ℚ)
          else o.angle - dt * OBSTACLE_MOVEMENT_SPEED) = _
    rw [if_neg (not_lt.mpr hle)]
  · intro hgt
    show (if |o.angle - dt * OBSTACLE_MOVEMENT_SPEED| > PI * 2 then (0:ℚ)
          else o.angle - dt * OBSTACLE_MOVEMENT_SPEED) = 0
    rw [if_pos hgt]

/-- Witness for C3 (amended): an obstacle at angle `2` on a planet of radius
`10` centered at `(3, 4)`, with a cosine oracle answering `1` and a sine
oracle answering `0`, moves to `(45, 4)` and its angle becomes `1`. -/
theorem move_obstacles_spec_w :
    (move_obstacle (fun _ => 1) (fun _ => 0) (1/2) ⟨3, 4⟩ 10 ⟨⟨0, 0⟩, 2⟩).translation =
      ⟨45, 4⟩ ∧
    (move_obstacle (fun _ => 1) (fun _ => 0) (1/2) ⟨3, 4⟩ 10 ⟨⟨0, 0⟩, 2⟩).angle = 1 := by
  have h := (move_obstacles_spec (fun _ => 1) (fun _ => 0) (1/2) ⟨3, 4⟩ 10 []).2.2
    ⟨⟨0, 0⟩, 2⟩
  refine ⟨h.1.trans ?_, (h.2.1 ?_).trans ?_⟩
  · norm_num [OBSTACLE_SIZE]
  · norm_num [OBSTACLE_MOVEMENT_SPEED, PI]
  · norm_num [OBSTACLE_MOVEMENT_SPEED]

/-- C8 (counterexample): in a frame with `dt = 1` and no keys pressed, a
grounded player with velocity `100` does not end with velocity
`100 + GRAVITY_STRENGTH * |GRAVITY_STRENGTH| * 1`: the code first resets a
grounded player's velocity to `0`, so only the gravity term remains. -/
theorem player_jump_gain_counterexample :
    (player_jump 1 ⟨false, false⟩ 0 ⟨true, 100⟩).2.velocity ≠
      100 + GRAVITY_STRENGTH * |GRAVITY_STRENGTH| * 1 := by
  norm_num [player_jump, GRAVITY_STRENGTH]

/-- C8 (amended): a grounded player's velocity is first reset to `0`; then
the velocity gains `GRAVITY_STRENGTH * |GRAVITY_STRENGTH| * dt`; pressing
space while grounded sets the velocity to `PLAYER_JUMP_STRENGTH`; holding S
while not grounded adds `PLAYER_FALL_ACCELERATION * dt`; and the `y`
position advances by the resulting velocity times `dt`. -/
theorem player_jump_spec (dt : ℚ) (inp : JumpInput) (y : ℚ) (p : Player) :
    ((player_jump dt inp y p).1 = y + (player_jump dt inp y p).2.velocity * dt) ∧
    (p.is_grounded = true → inp.space_just_pressed = true →
      (player_jump dt inp y p).2.velocity = PLAYER_JUMP_STRENGTH) ∧
    (p.is_grounded = true → inp.space_just_pressed = false →
      (player_jump dt inp y p).2.velocity =
        GRAVITY_STRENGTH * |GRAVITY_STRENGTH| * dt) ∧
    (p.is_grounded = false → inp.s_pressed = false →
      (player_jump dt inp y p).2.velocity =
        p.velocity + GRAVITY_STRENGTH * |GRAVITY_STRENGTH| * dt) ∧
    (p.is_grounded = false → inp.s_pressed = true →
      (player_jump dt inp y p).2.velocity =
        p.velocity + GRAVITY_STRENGTH * |GRAVITY_STRENGTH| * dt +
          PLAYER_FALL_ACCELERATION * dt) := by
  refine ⟨rfl, ?_, ?_, ?_, ?_⟩ <;> intro h1 h2 <;> simp [player_jump, h1, h2]

/-- Witness for C8 (amended): pressing space while grounded gives velocity
`PLAYER_JUMP_STRENGTH`. -/
theorem player_jump_spec_w :
    (player_jump (1/60) ⟨true, false⟩ 5 ⟨true, 33⟩).2.velocity = PLAYER_JUMP_STRENGTH :=
  (player_jump_spec (1/60) ⟨true, false⟩ 5 ⟨true, 33⟩).2.1 rfl rfl

/-- Every reachable planet population has at most one planet entity. -/
theorem planets_reachable_length_le_one (ps : List Planet)
    (h : PlanetsReachable ps) : ps.length ≤ 1 := by
  induction h with
  | init => simp
  | step s t hs hst ih =>
    cases hst with
    | startSpawn => simp
    | touch pre p post => simpa using ih
    | transition pre p post hp =>
      simp only [List.length_append, List.length_cons, List.length_nil] at ih ⊢
      omega
    | restart ps' => simp

/-- C9: in every planet population reachable from the start of a run, at
most one planet has `is_playing` set (fresh planets start not playing, and
the live planet is despawned before its successor is spawned). -/
theorem planets_at_most_one_playing (ps : List Planet) (h : PlanetsReachable ps) :
    ps.countP (fun p => p.is_playing) ≤ 1 :=
  le_trans (List.countP_le_length _) (planets_reachable_length_le_one ps h)

/-- Witness for C9 at the population right after the first spawn. -/
theorem planets_at_most_one_playing_w :
    List.countP (fun p => p.is_playing) [mkPlanet PlanetVariant.Earth] ≤ 1 :=
  planets_at_most_one_playing [mkPlanet PlanetVariant.Earth]
    (PlanetsReachable.step [] [mkPlanet PlanetVariant.Earth] PlanetsReachable.init
      PlanetsStep.startSpawn)

/-- The spawn loop spawns exactly as many obstacles as it is asked to. -/
theorem spawnObstaclesLoop_length (cosQ sinQ : ℚ → ℚ) (rng : ObstacleRng)
    (infinite : Bool) (layout : List ℚ) (pt : Vec2) (pr : ℚ) :
    ∀ (n i : Nat) (last : ℚ),
      (spawnObstaclesLoop cosQ sinQ rng infinite layout pt pr n i last).length = n := by
  intro n
  induction n with
  | zero => intro i last; rfl
  | succ m ih =>
    intro i last
    simp only [spawnObstaclesLoop, List.length_cons, ih]

/-- In story mode the spawn loop emits exactly the layout angles from index
`i` on, whatever the random draws were. -/
theorem spawnObstaclesLoop_story_angles (cosQ sinQ : ℚ → ℚ) (rng : ObstacleRng)
    (layout : List ℚ) (pt : Vec2) (pr : ℚ) :
    ∀ (n i : Nat) (last : ℚ),
      (spawnObstaclesLoop cosQ sinQ rng false layout pt pr n i last).map
          (fun o => o.angle) =
        (List.range n).map (fun j => layout.getD (i + j) 0) := by
  intro n
  induction n with
  | zero => intro i last; rfl
  | succ m ih =>
    intro i last
    simp only [spawnObstaclesLoop, List.map_cons, Bool.not_false, if_true, ih]
    rw [List.range_succ_eq_map, List.map_cons, List.map_map]
    refine congrArg₂ List.cons (by simp) ?_
    refine List.map_congr_left ?_
    intro j hj
    simp only [Function.comp_apply]
    congr 1
    omega

/-- Mapping `getD` over the index range of a list reproduces the list. -/
theorem range_map_getD (l : List ℚ) :
    (List.range l.length).map (fun j => l.getD j 0) = l := by
  induction l with
  | nil => rfl
  | cons a t ih =>
    rw [List.length_cons, List.range_succ_eq_map, List.map_cons, List.map_map]
    refine congrArg₂ List.cons rfl ?_
    refine (List.map_congr_left ?_).trans ih
    intro j hj
    rfl

/-- C10: in story mode (`infinite_mode` off) `spawn_obstacles` spawns one
obstacle per layout angle of the planet variant, with the `i`-th obstacle at
the `i`-th layout angle; in infinite mode it spawns `num` obstacles, which
is between `1` and `OBSTACLES_MAX_NUM` by the contract of
`gen_range(1..=OBSTACLES_MAX_NUM)`. -/
theorem spawn_obstacles_spec (cosQ sinQ : ℚ → ℚ) (rng : ObstacleRng)
    (variant : PlanetVariant) (pt : Vec2) (pr : ℚ) (num : Nat) :
    ((spawn_obstacles cosQ sinQ rng false variant pt pr num).map (fun o => o.angle) =
        variant.get_obstacles ∧
      (spawn_obstacles cosQ sinQ rng false variant pt pr num).length =
        variant.get_obstacles.length) ∧
    (1 ≤ num → num ≤ OBSTACLES_MAX_NUM →
      1 ≤ (spawn_obstacles cosQ sinQ rng true variant pt pr num).length ∧
      (spawn_obstacles cosQ sinQ rng true variant pt pr num).length ≤
        OBSTACLES_MAX_NUM) := by
  refine ⟨⟨?_, ?_⟩, ?_⟩
  · show (spawnObstaclesLoop cosQ sinQ rng false variant.get_obstacles pt pr
        variant.get_obstacles.length 0 0).map (fun o => o.angle) = variant.get_obstacles
    rw [spawnObstaclesLoop_story_angles]
    simpa using range_map_getD variant.get_obstacles
  · exact spawnObstaclesLoop_length cosQ sinQ rng false variant.get_obstacles pt pr
      variant.get_obstacles.length 0 0
  · intro h1 h2
    have hlen := spawnObstaclesLoop_length cosQ sinQ rng true variant.get_obstacles
      pt pr num 0 0
    exact ⟨by rw [show (spawn_obstacles cosQ sinQ rng true variant pt pr num).length =
        num from hlen]; exact h1,
      by rw [show (spawn_obstacles cosQ sinQ rng true variant pt pr num).length =
        num from hlen]; exact h2⟩

/-- Witness for C10: three obstacles requested in infinite mode yield a
count within `1..=OBSTACLES_MAX_NUM`. -/
theorem spawn_obstacles_spec_w :
    1 ≤ (spawn_obstacles (fun _ => 0) (fun _ => 0)
        ⟨fun _ => true, fun _ => 0, fun _ => 0, fun _ => 0, fun _ => 0⟩
        true PlanetVariant.Earth ⟨0, 0⟩ 100 3).length ∧
    (spawn_obstacles (fun _ => 0) (fun _ => 0)
        ⟨fun _ => true, fun _ => 0, fun _ => 0, fun _ => 0, fun _ => 0⟩
        true PlanetVariant.Earth ⟨0, 0⟩ 100 3).length ≤ OBSTACLES_MAX_NUM :=
  (spawn_obstacles_spec (fun _ => 0) (fun _ => 0)
      ⟨fun _ => true, fun _ => 0, fun _ => 0, fun _ => 0, fun _ => 0⟩
      PlanetVariant.Earth ⟨0, 0⟩ 100 3).2 (by decide) (by decide)

end IndieVarvars
